import Mathlib

/-!
Shallow embedding of the proxy/request-orchestration layer of the
Private-Chatbot VS Code extension backend: the configuration store
(`ConfigService`, src/backend/src/services/configService.ts) and the
completion gateway (`LLMService`, the compiled llmService).

JavaScript truthiness semantics (`a || b`, `a && b` on numbers and strings,
where `0`, `""`, `undefined` are falsy) are modelled explicitly by the
`jsOr*` helpers, since several behaviours of the code hinge on them.
Strings are Lean `String`, integers `Int`, floats `ℚ` (no rounding is
involved in any bound checked here), and the HTTP layer is an oracle
function `Payload → HttpOutcome` passed to the gateway.
-/

namespace PrivateChatbot

/-- JS `String.prototype.trim`, over the character list (kernel-reducible,
unlike the byte-position-based core implementation). -/
def strTrim (s : String) : String :=
  ⟨((s.data.dropWhile Char.isWhitespace).reverse.dropWhile
      Char.isWhitespace).reverse⟩

/-- JS `String.prototype.length` (character count). -/
def strLength (s : String) : Nat :=
  s.data.length

/-- JS `String.prototype.startsWith`. -/
def strStartsWith (s pre : String) : Bool :=
  pre.data.isPrefixOf s.data

/-- JS `String.prototype.substring(0, n)`. -/
def strTake (s : String) (n : Nat) : String :=
  ⟨s.data.take n⟩

/-- JS `a || b` where `a` is an optional string field (`undefined` and `""`
are falsy). -/
def jsOrStrOpt (a : Option String) (b : String) : String :=
  match a with
  | some s => if s = "" then b else s
  | none => b

/-- JS `a || b` on strings (`""` is falsy). -/
def jsOrStr (a b : String) : String :=
  if a = "" then b else a

/-- JS `a || b` where `a` is an optional integer field (`undefined` and `0`
are falsy). -/
def jsOrInt (a : Option Int) (b : Int) : Int :=
  match a with
  | some n => if n = 0 then b else n
  | none => b

/-- JS `a || b` on integers (`0` is falsy). -/
def jsOrIntD (a b : Int) : Int :=
  if a = 0 then b else a

/-- JS `a || b` where `a` is an optional float field (`undefined` and `0`
are falsy). -/
def jsOrRat (a : Option ℚ) (b : ℚ) : ℚ :=
  match a with
  | some x => if x = 0 then b else x
  | none => b

/-- JS `a || b` on floats (`0` is falsy). -/
def jsOrRatD (a b : ℚ) : ℚ :=
  if a = 0 then b else a

/-- The `LLMRequest` interface of the gateway (llmService): `model` and
`prompt` are strings, `max_tokens` and `temperature` optional numbers. -/
structure LLMRequest where
  model : String := ""
  prompt : String := ""
  max_tokens : Option Int := none
  temperature : Option ℚ := none
deriving DecidableEq

/-- Result shape of `LLMService.validateRequest`. -/
structure ValidationResult where
  valid : Bool
  errors : List String
deriving DecidableEq

/-- `LLMService.validateRequest`: collects the violated-rule messages in
source order and reports `valid` iff none.  The numeric checks are guarded
by JS truthiness (`request.max_tokens && ...`), so a value of `0` skips the
bound check. -/
def validateRequest (request : LLMRequest) : ValidationResult :=
  let e1 : List String :=
    if request.prompt = "" ∨ strLength (strTrim request.prompt) = 0 then
      ["Prompt is required and cannot be empty"] else []
  let e2 : List String :=
    if request.prompt ≠ "" ∧ strLength request.prompt > 10000 then
      ["Prompt is too long (maximum 10,000 characters)"] else []
  let e3 : List String :=
    match request.max_tokens with
    | some n => if n ≠ 0 ∧ (n < 1 ∨ n > 4000) then
        ["max_tokens must be between 1 and 4000"] else []
    | none => []
  let e4 : List String :=
    match request.temperature with
    | some t => if t ≠ 0 ∧ (t < 0 ∨ t > 2) then
        ["temperature must be between 0 and 2"] else []
    | none => []
  let errors := e1 ++ e2 ++ e3 ++ e4
  { valid := decide (errors.length = 0), errors := errors }

/-- The full `LLMConfig` as returned by `ConfigService.getConfig`. -/
structure LLMConfig where
  apiUrl : String
  apiToken : String
  defaultModel : String
  maxTokens : Int
  temperature : ℚ
  requestTimeout : Int
  enableLogging : Bool
deriving DecidableEq

/-- The stored `Partial<LLMConfig>` held by `ConfigService` (`this.config`). -/
structure PartialLLMConfig where
  apiUrl : Option String := none
  apiToken : Option String := none
  defaultModel : Option String := none
  maxTokens : Option Int := none
  temperature : Option ℚ := none
  requestTimeout : Option Int := none
  enableLogging : Option Bool := none
deriving DecidableEq

/-- The empty stored configuration. -/
def emptyPartialConfig : PartialLLMConfig := {}

/-- The `defaultConfig` literal inside `ConfigService.getConfig`. -/
def defaultLLMConfig : LLMConfig :=
  { apiUrl := ""
    apiToken := ""
    defaultModel := "meta-llama/Meta-Llama-3-8B"
    maxTokens := 150
    temperature := 3/10
    requestTimeout := 30000
    enableLogging := false }

/-- `ConfigService.getConfig`: spread of the stored partial config over the
defaults (presence-based, not truthiness-based). -/
def getConfig (stored : PartialLLMConfig) : LLMConfig :=
  { apiUrl := stored.apiUrl.getD defaultLLMConfig.apiUrl
    apiToken := stored.apiToken.getD defaultLLMConfig.apiToken
    defaultModel := stored.defaultModel.getD defaultLLMConfig.defaultModel
    maxTokens := stored.maxTokens.getD defaultLLMConfig.maxTokens
    temperature := stored.temperature.getD defaultLLMConfig.temperature
    requestTimeout := stored.requestTimeout.getD defaultLLMConfig.requestTimeout
    enableLogging := stored.enableLogging.getD defaultLLMConfig.enableLogging }

/-- The `config.apiUrl` clause of `ConfigService.validateConfig`: present,
truthy (non-empty) and not starting with `"http"` is rejected. -/
def checkApiUrl (config : PartialLLMConfig) : Option String :=
  match config.apiUrl with
  | some url =>
      if url ≠ "" ∧ strStartsWith url "http" = false then
        some "API URL must start with http:// or https://"
      else none
  | none => none

/-- The `config.maxTokens` clause of `ConfigService.validateConfig`. -/
def checkMaxTokens (config : PartialLLMConfig) : Option String :=
  match config.maxTokens with
  | some n =>
      if n < 1 ∨ n > 4000 then
        some "maxTokens must be between 1 and 4000"
      else none
  | none => none

/-- The `config.temperature` clause of `ConfigService.validateConfig`. -/
def checkTemperature (config : PartialLLMConfig) : Option String :=
  match config.temperature with
  | some t =>
      if t < 0 ∨ t > 2 then
        some "temperature must be between 0 and 2"
      else none
  | none => none

/-- The `config.requestTimeout` clause of `ConfigService.validateConfig`. -/
def checkRequestTimeout (config : PartialLLMConfig) : Option String :=
  match config.requestTimeout with
  | some ms =>
      if ms < 1000 ∨ ms > 120000 then
        some "requestTimeout must be between 1000ms and 120000ms"
      else none
  | none => none

/-- `ConfigService.validateConfig`: throws on the first violated field, in
source order. -/
def validateConfig (config : PartialLLMConfig) : Except String Unit :=
  match checkApiUrl config with
  | some e => .error e
  | none =>
  match checkMaxTokens config with
  | some e => .error e
  | none =>
  match checkTemperature config with
  | some e => .error e
  | none =>
  match checkRequestTimeout config with
  | some e => .error e
  | none => .ok ()

/-- The spread `{ ...this.config, ...newConfig }` in `updateConfig`:
fields present in `newConfig` win. -/
def mergeConfig (stored newConfig : PartialLLMConfig) : PartialLLMConfig :=
  { apiUrl := newConfig.apiUrl.orElse fun _ => stored.apiUrl
    apiToken := newConfig.apiToken.orElse fun _ => stored.apiToken
    defaultModel := newConfig.defaultModel.orElse fun _ => stored.defaultModel
    maxTokens := newConfig.maxTokens.orElse fun _ => stored.maxTokens
    temperature := newConfig.temperature.orElse fun _ => stored.temperature
    requestTimeout := newConfig.requestTimeout.orElse fun _ => stored.requestTimeout
    enableLogging := newConfig.enableLogging.orElse fun _ => stored.enableLogging }

/-- `ConfigService.updateConfig`: validate, then merge into the in-memory
state, then persist.  `saveOk` models whether the file write in
`saveConfig` succeeds; a failed write throws `"Failed to save
configuration"` AFTER the in-memory merge already happened.  Returns the
call outcome together with the resulting in-memory state. -/
def updateConfig (stored newConfig : PartialLLMConfig) (saveOk : Bool) :
    Except String Unit × PartialLLMConfig :=
  match validateConfig newConfig with
  | .error e => (.error e, stored)
  | .ok _ =>
      let merged := mergeConfig stored newConfig
      if saveOk then (.ok (), merged)
      else (.error "Failed to save configuration", merged)

/-- `ConfigService.setApiConfig`: guards on the URL (truthy and starting
with `"http"`) and the token (truthy, non-blank), then delegates to
`updateConfig` with the trimmed values. -/
def setApiConfig (stored : PartialLLMConfig) (apiUrl apiToken : String)
    (saveOk : Bool) : Except String Unit × PartialLLMConfig :=
  if apiUrl = "" ∨ strStartsWith apiUrl "http" = false then
    (.error "Invalid API URL. Must start with http:// or https://", stored)
  else if apiToken = "" ∨ strLength (strTrim apiToken) = 0 then
    (.error "API token is required", stored)
  else
    updateConfig stored
      { apiUrl := some (strTrim apiUrl), apiToken := some (strTrim apiToken) } saveOk

/-- `ConfigService.getMaskedConfig`: same shape as `getConfig`, with
`apiToken` replaced by its first 10 characters plus `"..."` (or `""` when
empty) and an empty `apiUrl` rendered as `"[Not configured]"`. -/
def getMaskedConfig (stored : PartialLLMConfig) : LLMConfig :=
  let config := getConfig stored
  { config with
    apiToken :=
      if config.apiToken = "" then "" else strTake config.apiToken 10 ++ "..."
    apiUrl :=
      if config.apiUrl = "" then "[Not configured]" else config.apiUrl }

/-- One choice of an OpenAI-completions-like upstream response body
(`choices[].text` / `choices[].message.content`). -/
structure Choice where
  text : Option String := none
  messageContent : Option String := none
deriving DecidableEq

/-- The parsed upstream response body (`response.data`).  `errorMessage`
models `data.error?.message`. -/
structure UpstreamBody where
  choices : Option (List Choice) := none
  errorMessage : Option String := none
  totalTokens : Option Nat := none
deriving DecidableEq

/-- The outbound JSON payload built by `sendChatCompletion`. -/
structure Payload where
  model : String
  prompt : String
  max_tokens : Int
  temperature : ℚ
deriving DecidableEq

/-- The outcome of the outbound HTTP POST, as axios reports it with
`validateStatus: status < 500`: a response (any status), no response at all
(timeout, DNS, refused — `error.request` set), or a failure to even issue
the request (neither `error.response` nor `error.request`). -/
inductive HttpOutcome where
  | response (status : Nat) (statusText : String) (body : UpstreamBody)
  | noResponse
  | requestSetupFailure (msg : String)
deriving DecidableEq

/-- The payload literal in `sendChatCompletion`: each field falls back
through JS `||` chains (request field, configured value, hard-coded
default), so falsy request values — `0`, `""` — are replaced. -/
def buildPayload (request : LLMRequest) (config : LLMConfig) : Payload :=
  { model := jsOrStr request.model
      (jsOrStr config.defaultModel "meta-llama/Meta-Llama-3-8B")
    prompt := request.prompt
    max_tokens := jsOrInt request.max_tokens (jsOrIntD config.maxTokens 100)
    temperature :=
      jsOrRat request.temperature (jsOrRatD config.temperature (7/10)) }

/-- `LLMService.sendChatCompletion`, instrumented: the second component
records whether the HTTP oracle was invoked (an outbound network call was
made).  Mirrors the source control flow: config guards before any call; a
4xx response triggers the inner `throw` which the surrounding `catch`
re-wraps through its final `else` branch (the thrown value carries neither
`error.response` nor `error.request`); a 5xx response is an axios rejection
carrying `error.response`, whose message falls back from
`data.error?.message` to `statusText`; no response at all yields the fixed
not-responding message. -/
def sendChatCompletionT (config : LLMConfig) (request : LLMRequest)
    (http : Payload → HttpOutcome) : Except String UpstreamBody × Bool :=
  if config.apiUrl = "" then
    (.error "LLM API URL not configured", false)
  else if config.apiToken = "" then
    (.error "LLM API token not configured", false)
  else
    match http (buildPayload request config) with
    | .response status statusText body =>
        if status < 500 then
          if status ≥ 400 then
            (.error ("Request failed: LLM API returned error: " ++
              toString status ++ " - " ++ statusText), true)
          else
            (.ok body, true)
        else
          (.error ("LLM API Error (" ++ toString status ++ "): " ++
            jsOrStrOpt body.errorMessage statusText), true)
    | .noResponse =>
        (.error "LLM API is not responding. Please check the API URL and network connection.", true)
    | .requestSetupFailure msg =>
        (.error ("Request failed: " ++ msg), true)

/-- `LLMService.sendChatCompletion` (result only). -/
def sendChatCompletion (config : LLMConfig) (request : LLMRequest)
    (http : Payload → HttpOutcome) : Except String UpstreamBody :=
  (sendChatCompletionT config request http).1

/-- `choice.text || choice.message?.content || ''`. -/
def extractText (choice : Choice) : String :=
  jsOrStrOpt choice.text (jsOrStrOpt choice.messageContent "")

/-- `LLMService.sendCompletion`: wraps `sendChatCompletion` with an empty
model and extracts the first choice, throwing `"No response from LLM"` when
`choices` is absent or empty. -/
def sendCompletion (config : LLMConfig) (http : Payload → HttpOutcome)
    (prompt : String) (maxTokens : Option Int) : Except String String :=
  match sendChatCompletion config
      { model := "", prompt := prompt, max_tokens := maxTokens } http with
  | .error e => .error e
  | .ok response =>
      match response.choices with
      | some (choice :: _) => .ok (extractText choice)
      | _ => .error "No response from LLM"

/-- Result shape of `LLMService.testConnection`. -/
structure TestResult where
  success : Bool
  message : String
  responseTime : Option Int := none
deriving DecidableEq

/-- The fixed test prompt of `testConnection`. -/
def testPrompt : String :=
  "Hello, this is a connection test. Please respond with \x27Connection successful\x27."

/-- `LLMService.testConnection`: wall-clock latency is abstracted as the
`elapsedMs` parameter.  Never throws: both branches return a result. -/
def testConnection (config : LLMConfig) (http : Payload → HttpOutcome)
    (elapsedMs : Int) : TestResult :=
  match sendCompletion config http testPrompt (some 20) with
  | .ok response =>
      { success := true
        message := "Connection successful! Response: " ++ strTake response 100 ++ "..."
        responseTime := some elapsedMs }
  | .error e =>
      { success := false, message := "Connection failed: " ++ e }

/-- Substring containment, on the underlying character lists. -/
def strContains (s sub : String) : Prop :=
  sub.data <:+: s.data

instance (s sub : String) : Decidable (strContains s sub) :=
  inferInstanceAs (Decidable (sub.data <:+: s.data))

instance {ε α : Type} [DecidableEq ε] [DecidableEq α] :
    DecidableEq (Except ε α) := fun a b =>
  match a, b with
  | .error e, .error f =>
      if h : e = f then isTrue (by rw [h]) else
        isFalse (by intro hc; cases hc; exact h rfl)
  | .ok x, .ok y =>
      if h : x = y then isTrue (by rw [h]) else
        isFalse (by intro hc; cases hc; exact h rfl)
  | .error _, .ok _ => isFalse (by intro hc; cases hc)
  | .ok _, .error _ => isFalse (by intro hc; cases hc)

/-! Concrete fixtures used by counterexamples and witnesses. -/

/-- A fully configured service state (endpoint and token set). -/
def cfgA : LLMConfig :=
  { apiUrl := "https://llm.example"
    apiToken := "tok"
    defaultModel := "d"
    maxTokens := 150
    temperature := 1
    requestTimeout := 30000
    enableLogging := false }

/-- An HTTP oracle answering 404 with an upstream body carrying
`error.message = "model not found"`. -/
def http404 : Payload → HttpOutcome :=
  fun _ => .response 404 "Not Found" { errorMessage := some "model not found" }

/-- A stored configuration holding a 14-character token. -/
def tokenStored : PartialLLMConfig :=
  { apiToken := some "secrettoken123" }

/-! Helper lemmas. -/

theorem validateRequest_valid_eq (r : LLMRequest) :
    (validateRequest r).valid = decide ((validateRequest r).errors.length = 0) :=
  rfl

theorem validateRequest_valid_false {r : LLMRequest} {msg : String}
    (h : msg ∈ (validateRequest r).errors) :
    (validateRequest r).valid = false := by
  rw [validateRequest_valid_eq, decide_eq_false_iff_not]
  intro h0
  rw [List.length_eq_zero] at h0
  rw [h0] at h
  exact absurd h (List.not_mem_nil msg)

theorem strContains_middle (a mid b : String) :
    strContains (a ++ mid ++ b) mid := by
  show mid.data <:+: (a ++ mid ++ b).data
  exact ⟨a.data, b.data, by rw [String.data_append, String.data_append]⟩

theorem mem_validateRequest_of_max_tokens {r : LLMRequest} {n : Int}
    (h1 : r.max_tokens = some n) (hn0 : n ≠ 0) (hb : n < 1 ∨ n > 4000) :
    "max_tokens must be between 1 and 4000" ∈ (validateRequest r).errors := by
  simp [validateRequest, h1]
  exact Or.inl ⟨hn0, hb⟩

theorem mem_validateRequest_of_temperature {r : LLMRequest} {t : ℚ}
    (h1 : r.temperature = some t) (hb : t < 0 ∨ t > 2) :
    "temperature must be between 0 and 2" ∈ (validateRequest r).errors := by
  have ht0 : t ≠ 0 := by
    rcases hb with hb | hb
    · exact ne_of_lt hb
    · exact (ne_of_lt (lt_trans (by norm_num) hb)).symm
  simp [validateRequest, h1]
  exact Or.inr ⟨ht0, hb⟩

/-- C1 counterexample: the request `{prompt := "Hello", max_tokens := 0}`
has `maxTokens` present and outside `[1,4000]` (`0 < 1`), yet
`validateRequest` reports `valid = true` — the JS truthiness guard
`request.max_tokens && ...` skips the bound check for `0`. -/
theorem C1_counterexample :
    (0 : Int) < 1 ∧
    (validateRequest { prompt := "Hello", max_tokens := some 0 }).valid = true := by
  decide

/-- C1 (amended): for every request, a present `max_tokens` that is nonzero
and outside `[1,4000]` yields `valid = false` with the corresponding
message, a present `temperature` outside `[0,2]` yields `valid = false`
with the corresponding message, and a request with a non-blank prompt of
length at most 10000 whose present `max_tokens` lies in `[1,4000]` and
whose present `temperature` lies in `[0,2]` yields `valid = true`.  (The
sole deviation from the claim: a present `max_tokens` of `0` is treated as
absent by JS truthiness, so it yields `valid = true`.) -/
theorem C1_validateRequest_bounds (r : LLMRequest) :
    (∀ n : Int, r.max_tokens = some n → n ≠ 0 → (n < 1 ∨ n > 4000) →
      (validateRequest r).valid = false ∧
      "max_tokens must be between 1 and 4000" ∈ (validateRequest r).errors) ∧
    (∀ t : ℚ, r.temperature = some t → (t < 0 ∨ t > 2) →
      (validateRequest r).valid = false ∧
      "temperature must be between 0 and 2" ∈ (validateRequest r).errors) ∧
    (strLength (strTrim r.prompt) ≠ 0 → strLength r.prompt ≤ 10000 →
      (∀ n : Int, r.max_tokens = some n → 1 ≤ n ∧ n ≤ 4000) →
      (∀ t : ℚ, r.temperature = some t → 0 ≤ t ∧ t ≤ 2) →
      (validateRequest r).valid = true) := by
  refine ⟨?_, ?_, ?_⟩
  · intro n h1 hn0 hb
    exact ⟨validateRequest_valid_false (mem_validateRequest_of_max_tokens h1 hn0 hb),
      mem_validateRequest_of_max_tokens h1 hn0 hb⟩
  · intro t h1 hb
    exact ⟨validateRequest_valid_false (mem_validateRequest_of_temperature h1 hb),
      mem_validateRequest_of_temperature h1 hb⟩
  · intro hblank hlen hmt hte
    have hpne : r.prompt ≠ "" := by
      intro he
      apply hblank
      rw [he]
      rfl
    have he1 : ¬ (r.prompt = "" ∨ strLength (strTrim r.prompt) = 0) := by
      rintro (h | h)
      · exact hpne h
      · exact hblank h
    have he2 : ¬ (r.prompt ≠ "" ∧ strLength r.prompt > 10000) := by
      rintro ⟨-, h⟩
      omega
    rcases hmt' : r.max_tokens with - | n
    · rcases hte' : r.temperature with - | t
      · simp only [validateRequest, hmt', hte']
        rw [if_neg he1, if_neg he2]
        rfl
      · have hbt := hte t hte'
        simp only [validateRequest, hmt', hte']
        rw [if_neg he1, if_neg he2,
          if_neg (by rintro ⟨-, h | h⟩ <;> [exact absurd hbt.1 (not_le.mpr h); exact absurd hbt.2 (not_le.mpr h)])]
        rfl
    · have hbn := hmt n hmt'
      rcases hte' : r.temperature with - | t
      · simp only [validateRequest, hmt', hte']
        rw [if_neg he1, if_neg he2,
          if_neg (by rintro ⟨-, h | h⟩ <;> omega)]
        rfl
      · have hbt := hte t hte'
        simp only [validateRequest, hmt', hte']
        rw [if_neg he1, if_neg he2,
          if_neg (by rintro ⟨-, h | h⟩ <;> omega),
          if_neg (by rintro ⟨-, h | h⟩ <;> [exact absurd hbt.1 (not_le.mpr h); exact absurd hbt.2 (not_le.mpr h)])]
        rfl

/-- C1 witness: concrete instantiation of the amended claim — prompt
`"Hello"` with `max_tokens = 5000` is rejected with the max_tokens
message. -/
theorem C1_witness :
    (validateRequest { prompt := "Hello", max_tokens := some 5000 }).valid = false ∧
    "max_tokens must be between 1 and 4000" ∈
      (validateRequest { prompt := "Hello", max_tokens := some 5000 }).errors :=
  (C1_validateRequest_bounds { prompt := "Hello", max_tokens := some 5000 }).1
    5000 rfl (by decide) (Or.inr (by decide))

/-- C2 counterexample: a request with `temperature = 0` — present and a
valid value — is sent with the configured default (here `1`), not `0`: the
payload merge uses JS `||`, which drops falsy request values. -/
theorem C2_counterexample :
    ({ model := "m", prompt := "hi", temperature := some 0 } : LLMRequest).temperature
      = some 0 ∧
    cfgA.temperature = 1 ∧
    (buildPayload { model := "m", prompt := "hi", temperature := some 0 } cfgA).temperature
      = 1 ∧
    (1 : ℚ) ≠ 0 := by
  decide

/-- C2 (amended): the outbound payload takes `model`, `max_tokens` and
`temperature` from the request whenever the request value is present AND
truthy (non-empty string, nonzero number), and from the configured value
otherwise (itself falling back to a hard-coded default when falsy); in
particular a present `temperature` of `0` is replaced by the configured
default rather than sent as `0`. -/
theorem C2_buildPayload_merge (r : LLMRequest) (c : LLMConfig) :
    (r.model ≠ "" → (buildPayload r c).model = r.model) ∧
    (∀ n : Int, r.max_tokens = some n → n ≠ 0 →
      (buildPayload r c).max_tokens = n) ∧
    (∀ t : ℚ, r.temperature = some t → t ≠ 0 →
      (buildPayload r c).temperature = t) ∧
    (r.max_tokens = none → c.maxTokens ≠ 0 →
      (buildPayload r c).max_tokens = c.maxTokens) ∧
    (r.temperature = none → c.temperature ≠ 0 →
      (buildPayload r c).temperature = c.temperature) ∧
    (r.temperature = some 0 →
      (buildPayload r c).temperature = jsOrRatD c.temperature (7/10)) := by
  refine ⟨?_, ?_, ?_, ?_, ?_, ?_⟩
  · intro h
    simp [buildPayload, jsOrStr, h]
  · intro n h hn
    simp [buildPayload, jsOrInt, h, hn]
  · intro t h ht
    simp [buildPayload, jsOrRat, h, ht]
  · intro h hc
    simp [buildPayload, jsOrInt, jsOrIntD, h, hc]
  · intro h hc
    simp [buildPayload, jsOrRat, jsOrRatD, h, hc]
  · intro h
    simp [buildPayload, jsOrRat, h]

/-- C2 witness: a nonzero present temperature of `2` is sent as `2`. -/
theorem C2_witness :
    (buildPayload { model := "m", prompt := "hi", temperature := some 2 } cfgA).temperature
      = 2 :=
  (C2_buildPayload_merge { model := "m", prompt := "hi", temperature := some 2 } cfgA).2.2.1
    2 rfl (by decide)

/-- The four field-naming validation messages of `validateConfig`. -/
def configErrorMessages : List String :=
  ["API URL must start with http:// or https://",
   "maxTokens must be between 1 and 4000",
   "temperature must be between 0 and 2",
   "requestTimeout must be between 1000ms and 120000ms"]

theorem checkApiUrl_some {c : PartialLLMConfig} {e : String}
    (h : checkApiUrl c = some e) :
    e = "API URL must start with http:// or https://" := by
  rcases hu : c.apiUrl with - | url <;> simp only [checkApiUrl, hu] at h
  · exact absurd h (by simp)
  · by_cases hc : url ≠ "" ∧ strStartsWith url "http" = false
    · rw [if_pos hc] at h
      exact (Option.some_injective _ h).symm
    · rw [if_neg hc] at h
      exact absurd h (by simp)

theorem checkMaxTokens_some {c : PartialLLMConfig} {e : String}
    (h : checkMaxTokens c = some e) :
    e = "maxTokens must be between 1 and 4000" := by
  rcases hu : c.maxTokens with - | n <;> simp only [checkMaxTokens, hu] at h
  · exact absurd h (by simp)
  · by_cases hc : n < 1 ∨ n > 4000
    · rw [if_pos hc] at h
      exact (Option.some_injective _ h).symm
    · rw [if_neg hc] at h
      exact absurd h (by simp)

theorem checkTemperature_some {c : PartialLLMConfig} {e : String}
    (h : checkTemperature c = some e) :
    e = "temperature must be between 0 and 2" := by
  rcases hu : c.temperature with - | t <;> simp only [checkTemperature, hu] at h
  · exact absurd h (by simp)
  · by_cases hc : t < 0 ∨ t > 2
    · rw [if_pos hc] at h
      exact (Option.some_injective _ h).symm
    · rw [if_neg hc] at h
      exact absurd h (by simp)

theorem checkRequestTimeout_some {c : PartialLLMConfig} {e : String}
    (h : checkRequestTimeout c = some e) :
    e = "requestTimeout must be between 1000ms and 120000ms" := by
  rcases hu : c.requestTimeout with - | ms <;> simp only [checkRequestTimeout, hu] at h
  · exact absurd h (by simp)
  · by_cases hc : ms < 1000 ∨ ms > 120000
    · rw [if_pos hc] at h
      exact (Option.some_injective _ h).symm
    · rw [if_neg hc] at h
      exact absurd h (by simp)

theorem validateConfig_error_mem {c : PartialLLMConfig} {e : String}
    (h : validateConfig c = .error e) : e ∈ configErrorMessages := by
  unfold validateConfig at h
  rcases h1 : checkApiUrl c with - | e1 <;> rw [h1] at h
  · rcases h2 : checkMaxTokens c with - | e2 <;> rw [h2] at h
    · rcases h3 : checkTemperature c with - | e3 <;> rw [h3] at h
      · rcases h4 : checkRequestTimeout c with - | e4 <;> rw [h4] at h
        · exact absurd h (by simp)
        · cases h
          rw [checkRequestTimeout_some h4]
          simp [configErrorMessages]
      · cases h
        rw [checkTemperature_some h3]
        simp [configErrorMessages]
    · cases h
      rw [checkMaxTokens_some h2]
      simp [configErrorMessages]
  · cases h
    rw [checkApiUrl_some h1]
    simp [configErrorMessages]

theorem validateConfig_error_of_violation {c : PartialLLMConfig}
    (hviol :
      (∃ url, c.apiUrl = some url ∧ url ≠ "" ∧ strStartsWith url "http" = false) ∨
      (∃ n : Int, c.maxTokens = some n ∧ (n < 1 ∨ n > 4000)) ∨
      (∃ t : ℚ, c.temperature = some t ∧ (t < 0 ∨ t > 2)) ∨
      (∃ ms : Int, c.requestTimeout = some ms ∧ (ms < 1000 ∨ ms > 120000))) :
    ∃ e, validateConfig c = .error e := by
  have hsome :
      checkApiUrl c ≠ none ∨ checkMaxTokens c ≠ none ∨
      checkTemperature c ≠ none ∨ checkRequestTimeout c ≠ none := by
    rcases hviol with ⟨url, hu, hne, hsw⟩ | ⟨n, hu, hb⟩ | ⟨t, hu, hb⟩ | ⟨ms, hu, hb⟩
    · refine Or.inl ?_
      simp only [checkApiUrl, hu]
      rw [if_pos ⟨hne, hsw⟩]
      simp
    · refine Or.inr (Or.inl ?_)
      simp only [checkMaxTokens, hu]
      rw [if_pos hb]
      simp
    · refine Or.inr (Or.inr (Or.inl ?_))
      simp only [checkTemperature, hu]
      rw [if_pos hb]
      simp
    · refine Or.inr (Or.inr (Or.inr ?_))
      simp only [checkRequestTimeout, hu]
      rw [if_pos hb]
      simp
  unfold validateConfig
  rcases h1 : checkApiUrl c with - | e1
  · rcases h2 : checkMaxTokens c with - | e2
    · rcases h3 : checkTemperature c with - | e3
      · rcases h4 : checkRequestTimeout c with - | e4
        · rcases hsome with h | h | h | h <;> simp_all
        · exact ⟨e4, rfl⟩
      · exact ⟨e3, rfl⟩
    · exact ⟨e2, rfl⟩
  · exact ⟨e1, rfl⟩

/-- C3 counterexample: the partial update `{endpointUrl := "httpfoo"}` has
a present field violating the stated bound — `"httpfoo"` is non-empty and
starts with neither `http://` nor `https://` — yet `updateConfig` succeeds
and the stored configuration changes (the code only checks the prefix
`"http"`). -/
theorem C3_counterexample :
    strStartsWith "httpfoo" "http://" = false ∧
    strStartsWith "httpfoo" "https://" = false ∧
    "httpfoo" ≠ "" ∧
    (updateConfig emptyPartialConfig { apiUrl := some "httpfoo" } true).1 = .ok () ∧
    (getConfig (updateConfig emptyPartialConfig { apiUrl := some "httpfoo" } true).2).apiUrl
      = "httpfoo" := by
  decide

/-- C3 (amended): for every partial configuration in which some present
field violates its bound — `endpointUrl` non-empty without an `"http"`
prefix (NOT the stricter `http://`-or-`https://` check the claim states),
`maxTokens` outside `[1,4000]`, `temperature` outside `[0,2]`, or
`requestTimeoutMs` outside `[1000,120000]` — `updateConfig` fails with a
`ValidationError` naming an offending field, and the stored configuration
is unchanged. -/
theorem C3_updateConfig_atomic (stored newConfig : PartialLLMConfig) (saveOk : Bool)
    (hviol :
      (∃ url, newConfig.apiUrl = some url ∧ url ≠ "" ∧
        strStartsWith url "http" = false) ∨
      (∃ n : Int, newConfig.maxTokens = some n ∧ (n < 1 ∨ n > 4000)) ∨
      (∃ t : ℚ, newConfig.temperature = some t ∧ (t < 0 ∨ t > 2)) ∨
      (∃ ms : Int, newConfig.requestTimeout = some ms ∧
        (ms < 1000 ∨ ms > 120000))) :
    ∃ e, updateConfig stored newConfig saveOk = (.error e, stored) ∧
      e ∈ configErrorMessages := by
  obtain ⟨e, he⟩ := validateConfig_error_of_violation hviol
  exact ⟨e, by simp [updateConfig, he], validateConfig_error_mem he⟩

/-- C3 witness: `maxTokens = 9999` is rejected and the stored state is
returned unchanged. -/
theorem C3_witness :
    ∃ e, updateConfig emptyPartialConfig { maxTokens := some 9999 } true =
      (.error e, emptyPartialConfig) ∧ e ∈ configErrorMessages :=
  C3_updateConfig_atomic emptyPartialConfig { maxTokens := some 9999 } true
    (Or.inr (Or.inl ⟨9999, rfl, by decide⟩))

/-- C7 counterexample: `"httpfoo"` is non-empty and starts with neither
`http://` nor `https://`, yet `setApiConfig` accepts it and the stored
configuration changes — the guard only checks the prefix `"http"`. -/
theorem C7_counterexample :
    strStartsWith "httpfoo" "http://" = false ∧
    strStartsWith "httpfoo" "https://" = false ∧
    (setApiConfig emptyPartialConfig "httpfoo" "tok" true).1 = .ok () ∧
    (getConfig (setApiConfig emptyPartialConfig "httpfoo" "tok" true).2).apiUrl
      = "httpfoo" := by
  decide

/-- C7 (amended): for every non-empty url that does not start with the
prefix `"http"` (a weaker test than the claim's `http://`-or-`https://`;
`"ftp://bad"` still fails it), `setApiConfig(url, token)` and
`updateConfig({endpointUrl: url})` fail with a `ValidationError` and leave
the stored configuration unchanged. -/
theorem C7_scheme_check (stored : PartialLLMConfig) (url token : String)
    (saveOk : Bool) (hne : url ≠ "") (hsw : strStartsWith url "http" = false) :
    setApiConfig stored url token saveOk =
      (.error "Invalid API URL. Must start with http:// or https://", stored) ∧
    updateConfig stored { apiUrl := some url } saveOk =
      (.error "API URL must start with http:// or https://", stored) := by
  constructor
  · unfold setApiConfig
    rw [if_pos (Or.inr hsw)]
  · have hv : validateConfig { apiUrl := some url } =
        .error "API URL must start with http:// or https://" := by
      unfold validateConfig
      have h1 : checkApiUrl { apiUrl := some url } =
          some "API URL must start with http:// or https://" := by
        simp only [checkApiUrl]
        rw [if_pos ⟨hne, hsw⟩]
      rw [h1]
    simp [updateConfig, hv]

/-- C7 witness: the spec scenario `setApiConfig("ftp://bad", "tok")` is
rejected with the stored state unchanged, and so is
`updateConfig({endpointUrl := "ftp://bad"})`. -/
theorem C7_witness :
    setApiConfig emptyPartialConfig "ftp://bad" "tok" true =
      (.error "Invalid API URL. Must start with http:// or https://",
        emptyPartialConfig) ∧
    updateConfig emptyPartialConfig { apiUrl := some "ftp://bad" } true =
      (.error "API URL must start with http:// or https://",
        emptyPartialConfig) :=
  C7_scheme_check emptyPartialConfig "ftp://bad" "tok" true (by decide) (by decide)

/-- C4: if the stored configuration's endpoint URL or auth token is empty,
`sendChatCompletion` fails with the error naming the missing field and the
HTTP oracle is never invoked (second component `false`: no outbound
network call). -/
theorem C4_config_guard (config : LLMConfig) (request : LLMRequest)
    (http : Payload → HttpOutcome) :
    (config.apiUrl = "" →
      sendChatCompletionT config request http =
        (.error "LLM API URL not configured", false)) ∧
    (config.apiUrl ≠ "" → config.apiToken = "" →
      sendChatCompletionT config request http =
        (.error "LLM API token not configured", false)) := by
  constructor
  · intro h
    unfold sendChatCompletionT
    rw [if_pos h]
  · intro hu ht
    unfold sendChatCompletionT
    rw [if_neg hu, if_pos ht]

/-- C4 witness: with an empty endpoint URL (and, separately, an empty
token), the call fails with the corresponding message and no network call
is made. -/
theorem C4_witness :
    sendChatCompletionT { cfgA with apiUrl := "" } { prompt := "hi" } http404 =
      (.error "LLM API URL not configured", false) ∧
    sendChatCompletionT { cfgA with apiToken := "" } { prompt := "hi" } http404 =
      (.error "LLM API token not configured", false) :=
  ⟨(C4_config_guard { cfgA with apiUrl := "" } { prompt := "hi" } http404).1 rfl,
   (C4_config_guard { cfgA with apiToken := "" } { prompt := "hi" } http404).2
     (by decide) rfl⟩

/-- C5 counterexample: a 404 response whose body carries
`error.message = "model not found"` produces the error message
`"Request failed: LLM API returned error: 404 - Not Found"` — it contains
the status code and the HTTP status text, but NOT the upstream body's
message: the 4xx branch throws a plain error that the catch block cannot
match to `error.response`, so the body's message is discarded. -/
theorem C5_counterexample :
    sendChatCompletion cfgA { model := "m", prompt := "hi" } http404 =
      .error "Request failed: LLM API returned error: 404 - Not Found" ∧
    ¬ strContains "Request failed: LLM API returned error: 404 - Not Found"
        "model not found" := by
  decide

/-- C5 (amended): for every outbound call answered with a status in
`[400,500)`, `sendChatCompletion` fails with an error whose message
contains the status code and the HTTP status text; the upstream body's
error message is discarded on this path (it is only consulted for
status ≥ 500). -/
theorem C5_client_error_4xx (config : LLMConfig) (request : LLMRequest)
    (http : Payload → HttpOutcome) (status : Nat) (statusText : String)
    (body : UpstreamBody)
    (hu : config.apiUrl ≠ "") (ht : config.apiToken ≠ "")
    (hh : http (buildPayload request config) = .response status statusText body)
    (h4 : 400 ≤ status) (h5 : status < 500) :
    sendChatCompletion config request http =
      .error ("Request failed: LLM API returned error: " ++
        toString status ++ " - " ++ statusText) ∧
    strContains ("Request failed: LLM API returned error: " ++
        toString status ++ " - " ++ statusText) (toString status) := by
  constructor
  · unfold sendChatCompletion sendChatCompletionT
    rw [if_neg hu, if_neg ht, hh]
    simp [h4, h5]
  · have heq : ("Request failed: LLM API returned error: " ++
        toString status ++ " - " ++ statusText) =
        "Request failed: LLM API returned error: " ++ toString status ++
          (" - " ++ statusText) := by
      rw [String.append_assoc]
    rw [heq]
    exact strContains_middle "Request failed: LLM API returned error: "
      (toString status) (" - " ++ statusText)

/-- C5 witness: concrete instantiation at status 404. -/
theorem C5_witness :
    sendChatCompletion cfgA { model := "m", prompt := "hi" } http404 =
      .error ("Request failed: LLM API returned error: " ++
        toString 404 ++ " - " ++ "Not Found") ∧
    strContains ("Request failed: LLM API returned error: " ++
        toString 404 ++ " - " ++ "Not Found") (toString 404) :=
  C5_client_error_4xx cfgA { model := "m", prompt := "hi" } http404
    404 "Not Found" { errorMessage := some "model not found" }
    (by decide) (by decide) rfl (by decide) (by decide)

/-- C6 counterexample: with an empty stored token, the masked view's
`authToken` is `""` — exactly equal to the raw stored token, contradicting
"never equal to the raw stored token". -/
theorem C6_counterexample :
    (getConfig emptyPartialConfig).apiToken = "" ∧
    (getMaskedConfig emptyPartialConfig).apiToken =
      (getConfig emptyPartialConfig).apiToken := by
  decide

/-- C6 (amended): the masked `authToken` is exactly the first 10 characters
of the raw token followed by `"..."` when the token is non-empty, and `""`
when the token is empty (hence equal to the then-empty raw token); it can
equal a non-empty raw token only in the degenerate case where the token
already equals its own 10-character prefix followed by `"..."`.  An empty
`endpointUrl` is rendered as the sentinel `"[Not configured]"`. -/
theorem C6_masked_config (stored : PartialLLMConfig) :
    ((getConfig stored).apiToken = "" →
      (getMaskedConfig stored).apiToken = "") ∧
    ((getConfig stored).apiToken ≠ "" →
      (getMaskedConfig stored).apiToken =
        strTake (getConfig stored).apiToken 10 ++ "...") ∧
    ((getConfig stored).apiToken ≠ "" →
      (getMaskedConfig stored).apiToken = (getConfig stored).apiToken →
      (getConfig stored).apiToken =
        strTake (getConfig stored).apiToken 10 ++ "...") ∧
    ((getConfig stored).apiUrl = "" →
      (getMaskedConfig stored).apiUrl = "[Not configured]") := by
  refine ⟨?_, ?_, ?_, ?_⟩
  · intro h
    simp [getMaskedConfig, h]
  · intro h
    simp [getMaskedConfig, h]
  · intro h hm
    have h2 : (getMaskedConfig stored).apiToken =
        strTake (getConfig stored).apiToken 10 ++ "..." := by
      simp [getMaskedConfig, h]
    rw [hm] at h2
    exact h2
  · intro h
    simp [getMaskedConfig, h]

/-- C6 witness: a 14-character stored token is masked to its 10-character
prefix plus the ellipsis marker, which differs from the raw token. -/
theorem C6_witness :
    (getConfig tokenStored).apiToken ≠ "" ∧
    (getMaskedConfig tokenStored).apiToken = "secrettoke..." ∧
    (getMaskedConfig tokenStored).apiToken ≠ (getConfig tokenStored).apiToken :=
  ⟨by decide,
   by rw [(C6_masked_config tokenStored).2.1 (by decide)]; decide,
   by rw [(C6_masked_config tokenStored).2.1 (by decide)]; decide⟩

/-- C8: `testConnection` always returns a result object (it is a total
function of the completion outcome): on any failure `e` of the underlying
`sendCompletion` it returns `success = false` with message
`"Connection failed: " ++ e` — which contains `"failed"` — and on success
it returns the first-100-characters preview of the response plus the
elapsed time.  A timeout is exactly the `noResponse` oracle outcome, which
`sendCompletion` reports as the not-responding (`NetworkError`) message. -/
theorem C8_testConnection_total (config : LLMConfig)
    (http : Payload → HttpOutcome) (elapsedMs : Int) :
    (∀ e, sendCompletion config http testPrompt (some 20) = .error e →
      testConnection config http elapsedMs =
        { success := false, message := "Connection failed: " ++ e } ∧
      strContains ("Connection failed: " ++ e) "failed") ∧
    (∀ r, sendCompletion config http testPrompt (some 20) = .ok r →
      testConnection config http elapsedMs =
        { success := true
          message := "Connection successful! Response: " ++ strTake r 100 ++ "..."
          responseTime := some elapsedMs } ∧
      strLength (strTake r 100) ≤ 100) := by
  constructor
  · intro e he
    refine ⟨?_, ?_⟩
    · unfold testConnection
      rw [he]
    · have heq : ("Connection failed: " ++ e) =
          "Connection " ++ "failed" ++ (": " ++ e) := by
        rw [String.append_assoc]
        rfl
      rw [heq]
      exact strContains_middle "Connection " "failed" (": " ++ e)
  · intro r hr
    refine ⟨?_, ?_⟩
    · unfold testConnection
      rw [hr]
    · show (r.data.take 100).length ≤ 100
      rw [List.length_take]
      exact min_le_left 100 r.data.length

/-- C8 witness: a timed-out call (the `noResponse` outcome) yields
`success = false` with a message containing `"failed"`, without raising. -/
theorem C8_witness :
    testConnection cfgA (fun _ => .noResponse) 5 =
      { success := false
        message := "Connection failed: LLM API is not responding. Please check the API URL and network connection." } ∧
    strContains
      "Connection failed: LLM API is not responding. Please check the API URL and network connection."
      "failed" :=
  (C8_testConnection_total cfgA (fun _ => .noResponse) 5).1
    "LLM API is not responding. Please check the API URL and network connection."
    (by decide)

/-- C9: when the file write fails after validation succeeded
(`saveOk = false`), `updateConfig` propagates the persistence error — but
the in-memory state has already been merged, so a subsequent `getConfig`
observes every new field value even though nothing reached disk. -/
theorem C9_save_failure (stored newConfig : PartialLLMConfig)
    (hv : validateConfig newConfig = .ok ()) :
    updateConfig stored newConfig false =
      (.error "Failed to save configuration", mergeConfig stored newConfig) ∧
    (∀ url, newConfig.apiUrl = some url →
      (getConfig (updateConfig stored newConfig false).2).apiUrl = url) ∧
    (∀ tok, newConfig.apiToken = some tok →
      (getConfig (updateConfig stored newConfig false).2).apiToken = tok) ∧
    (∀ m, newConfig.defaultModel = some m →
      (getConfig (updateConfig stored newConfig false).2).defaultModel = m) ∧
    (∀ n : Int, newConfig.maxTokens = some n →
      (getConfig (updateConfig stored newConfig false).2).maxTokens = n) ∧
    (∀ t : ℚ, newConfig.temperature = some t →
      (getConfig (updateConfig stored newConfig false).2).temperature = t) ∧
    (∀ ms : Int, newConfig.requestTimeout = some ms →
      (getConfig (updateConfig stored newConfig false).2).requestTimeout = ms) ∧
    (∀ b, newConfig.enableLogging = some b →
      (getConfig (updateConfig stored newConfig false).2).enableLogging = b) := by
  have hupd : updateConfig stored newConfig false =
      (.error "Failed to save configuration", mergeConfig stored newConfig) := by
    simp [updateConfig, hv]
  refine ⟨hupd, ?_, ?_, ?_, ?_, ?_, ?_, ?_⟩ <;>
    intro v hvv <;>
    rw [hupd] <;>
    simp [getConfig, mergeConfig, hvv, Option.orElse]

/-- C9 witness: a valid `maxTokens := 2000` update whose save fails still
propagates the error while `getConfig` already reports 2000. -/
theorem C9_witness :
    updateConfig emptyPartialConfig { maxTokens := some 2000 } false =
      (.error "Failed to save configuration",
        mergeConfig emptyPartialConfig { maxTokens := some 2000 }) ∧
    (getConfig (updateConfig emptyPartialConfig { maxTokens := some 2000 } false).2).maxTokens
      = 2000 :=
  ⟨(C9_save_failure emptyPartialConfig { maxTokens := some 2000 } rfl).1,
   (C9_save_failure emptyPartialConfig { maxTokens := some 2000 } rfl).2.2.2.2.1
     2000 rfl⟩

/-- C10: when the upstream answers successfully (status < 400) with a body
whose `choices` list is non-empty but whose first choice has neither a
`text` field nor a `message.content` field, `sendCompletion` returns the
empty string; and the `"No response from LLM"` (`NoResponseError`) failure
occurs exactly when `choices` is absent or empty. -/
theorem C10_extract_fallback (config : LLMConfig) (http : Payload → HttpOutcome)
    (prompt : String) (maxTokens : Option Int) (status : Nat)
    (statusText : String) (body : UpstreamBody)
    (hu : config.apiUrl ≠ "") (ht : config.apiToken ≠ "")
    (hh : http (buildPayload
      { model := "", prompt := prompt, max_tokens := maxTokens } config) =
      .response status statusText body)
    (hs : status < 400) :
    (∀ choice rest, body.choices = some (choice :: rest) →
      choice.text = none → choice.messageContent = none →
      sendCompletion config http prompt maxTokens = .ok "") ∧
    (sendCompletion config http prompt maxTokens = .error "No response from LLM"
      ↔ (body.choices = none ∨ body.choices = some [])) := by
  have hok : sendChatCompletion config
      { model := "", prompt := prompt, max_tokens := maxTokens } http =
      .ok body := by
    have h5 : status < 500 := by omega
    unfold sendChatCompletion sendChatCompletionT
    rw [if_neg hu, if_neg ht, hh]
    simp [h5, Nat.not_le.mpr hs]
  constructor
  · intro choice rest hc htx hmc
    unfold sendCompletion
    rw [hok]
    simp [hc, extractText, jsOrStrOpt, htx, hmc]
  · unfold sendCompletion
    rw [hok]
    rcases hc : body.choices with - | cs
    · simp [hc]
    · rcases cs with - | ⟨choice, rest⟩
      · simp [hc]
      · simp [hc]

/-- C10 witness: a successful response whose single choice is empty yields
`.ok ""`, not a failure. -/
theorem C10_witness :
    sendCompletion cfgA
      (fun _ => .response 200 "OK" { choices := some [{}] }) "hi" none = .ok "" :=
  (C10_extract_fallback cfgA
      (fun _ => .response 200 "OK" { choices := some [{}] }) "hi" none
      200 "OK" { choices := some [{}] }
      (by decide) (by decide) rfl (by decide)).1
    {} [] rfl rfl rfl

end PrivateChatbot
